import Mathlib

/-!
Verification of the 50fps-challenge frame pipeline: a shallow embedding of
src/modules/SafetyQueue.h and src/generator.cpp, with theorems about the
bounded queue, the producer pacing and deadline, the consumer
wait/termination protocol, and the startup thread layout.
-/

/-- Frame container (SafetyQueue.h:13-16, struct img_data): an int id plus an
opaque cv::Mat payload. The payload plays no role in any claim, so only the
id is modelled. -/
structure ImgData where
  id : Int
deriving DecidableEq

/-- Bounded queue (SafetyQueue.h:24-66): a std::queue of img_data — the head
of the list is the front, i.e. the oldest element — plus the maxSize bound.
The member mutex only serialises access and is not part of the sequential
semantics. main_generator sets maxSize to the positive constant 15, so the
bound is modelled as a Nat. -/
structure SafetyQueue where
  q : List ImgData
  maxSize : Nat
deriving DecidableEq

/-- SafetyQueue::push (SafetyQueue.h:30-40): when the queue already holds
maxSize or more items (`q.size() >= maxSize`), the oldest item is popped and
the function returns without appending the incoming frame; otherwise the
frame is appended at the back. -/
def SafetyQueue.push (s : SafetyQueue) (data : ImgData) : SafetyQueue :=
  if s.maxSize ≤ s.q.length then { s with q := s.q.tail }
  else { s with q := s.q ++ [data] }

/-- SafetyQueue::pop (SafetyQueue.h:42-46): removes the front item when the
queue is nonempty, and does nothing otherwise. -/
def SafetyQueue.pop (s : SafetyQueue) : SafetyQueue :=
  if s.q.isEmpty then s else { s with q := s.q.tail }

/-- SafetyQueue::front (SafetyQueue.h:48-57): returns the front item when
present, and an item with id -1 (empty marker) otherwise. -/
def SafetyQueue.front (s : SafetyQueue) : ImgData :=
  match s.q with
  | [] => { id := -1 }
  | d :: _ => d

/-- SafetyQueue::size (SafetyQueue.h:59-61). -/
def SafetyQueue.size (s : SafetyQueue) : Nat := s.q.length

/-- SafetyQueue::empty (SafetyQueue.h:63-65). -/
def SafetyQueue.isEmpty (s : SafetyQueue) : Bool := s.q.isEmpty

/-- Queue operation issued by the pipeline: a producer push
(generator.cpp:136) or a consumer front-then-pop (generator.cpp:191-192). -/
inductive QOp where
  | push (data : ImgData)
  | pop
deriving DecidableEq

/-- Application of one operation to the queue. -/
def SafetyQueue.applyOp (s : SafetyQueue) (op : QOp) : SafetyQueue :=
  match op with
  | .push d => s.push d
  | .pop => s.pop

/-- Application of a whole sequence of operations, oldest first. -/
def SafetyQueue.runOps (s : SafetyQueue) (ops : List QOp) : SafetyQueue :=
  ops.foldl SafetyQueue.applyOp s

theorem SafetyQueue.applyOp_maxSize (s : SafetyQueue) (op : QOp) :
    (s.applyOp op).maxSize = s.maxSize := by
  cases op <;> simp only [SafetyQueue.applyOp, SafetyQueue.push, SafetyQueue.pop] <;>
    split <;> rfl

theorem SafetyQueue.applyOp_length_le (s : SafetyQueue) (op : QOp)
    (h : s.q.length ≤ s.maxSize) : (s.applyOp op).q.length ≤ s.maxSize := by
  cases op with
  | push d =>
      simp only [SafetyQueue.applyOp, SafetyQueue.push]
      split
      · simp only [List.length_tail]
        omega
      · simp only [List.length_append, List.length_cons, List.length_nil]
        omega
  | pop =>
      simp only [SafetyQueue.applyOp, SafetyQueue.pop]
      split
      · exact h
      · simp only [List.length_tail]
        omega

theorem SafetyQueue.runOps_maxSize (s : SafetyQueue) (ops : List QOp) :
    (s.runOps ops).maxSize = s.maxSize := by
  induction ops generalizing s with
  | nil => rfl
  | cons op ops ih =>
      simp only [SafetyQueue.runOps, List.foldl_cons] at *
      rw [ih (s.applyOp op), SafetyQueue.applyOp_maxSize]

theorem SafetyQueue.runOps_length_le (s : SafetyQueue) (ops : List QOp)
    (h : s.q.length ≤ s.maxSize) :
    (s.runOps ops).q.length ≤ (s.runOps ops).maxSize := by
  induction ops generalizing s with
  | nil => exact h
  | cons op ops ih =>
      simp only [SafetyQueue.runOps, List.foldl_cons] at *
      have hm := SafetyQueue.applyOp_maxSize s op
      have hl := SafetyQueue.applyOp_length_le s op h
      exact ih (s.applyOp op) (by omega)

/-- Claim C1 (evaluation of the code at the failing input): with capacity 2
and pushes of sequence ids 0, 1, 2 and no pops, SafetyQueue::push leaves the
queue holding only the frame with id 1: the overflow push pops the oldest
frame (id 0) and returns without appending the new frame (id 2), so the
surviving contents are [1], not the [1, 2] the claim requires. -/
theorem push_overflow_failing_input :
    ((((⟨[], 2⟩ : SafetyQueue).push ⟨0⟩).push ⟨1⟩).push ⟨2⟩).q = [⟨1⟩] ∧
    ((((⟨[], 2⟩ : SafetyQueue).push ⟨0⟩).push ⟨1⟩).push ⟨2⟩).q ≠ [⟨1⟩, ⟨2⟩] := by
  decide

/-- Claim C3: for every sequence of push and pop operations on a queue
constructed empty with positive capacity, the number of stored items stays
between 0 and the capacity. Every prefix of a sequence is itself a sequence,
so quantifying over all operation lists covers the state after each
individual operation completes. -/
theorem safetyQueue_capacity_invariant (cap : Nat) (hcap : 0 < cap)
    (ops : List QOp) :
    0 ≤ (SafetyQueue.runOps ⟨[], cap⟩ ops).q.length ∧
    (SafetyQueue.runOps ⟨[], cap⟩ ops).q.length ≤ cap := by
  refine ⟨Nat.zero_le _, ?_⟩
  have h := SafetyQueue.runOps_length_le ⟨[], cap⟩ ops (by simp)
  have hm : (SafetyQueue.runOps ⟨[], cap⟩ ops).maxSize = cap :=
    SafetyQueue.runOps_maxSize ⟨[], cap⟩ ops
  omega

/-- Claim C3 witness: the invariant instantiated at capacity 2 and the
overflowing push sequence 0, 1, 2. -/
theorem safetyQueue_capacity_invariant_witness :
    0 ≤ (SafetyQueue.runOps ⟨[], 2⟩ [.push ⟨0⟩, .push ⟨1⟩, .push ⟨2⟩]).q.length ∧
    (SafetyQueue.runOps ⟨[], 2⟩ [.push ⟨0⟩, .push ⟨1⟩, .push ⟨2⟩]).q.length ≤ 2 :=
  safetyQueue_capacity_invariant 2 (by decide) [.push ⟨0⟩, .push ⟨1⟩, .push ⟨2⟩]

/-- Queue together with the accounting counters of spec §8: the number of
push calls made (every generated frame is pushed, generator.cpp:120-136), the
number of overflow events (each prints one drop line, SafetyQueue.h:33), and
the number of frames popped by consumers (generator.cpp:191-192). -/
structure CountedQueue where
  sq : SafetyQueue
  pushedCalls : Nat
  overflowDrops : Nat
  poppedFrames : Nat
deriving DecidableEq

/-- Instrumented push: a call with the queue already full takes the overflow
branch of SafetyQueue::push and counts one drop; every call counts as one
push. -/
def CountedQueue.push (c : CountedQueue) (d : ImgData) : CountedQueue :=
  if c.sq.maxSize ≤ c.sq.q.length then
    { c with
        sq := c.sq.push d
        pushedCalls := c.pushedCalls + 1
        overflowDrops := c.overflowDrops + 1 }
  else
    { c with sq := c.sq.push d, pushedCalls := c.pushedCalls + 1 }

/-- Instrumented consumer pop: removes and counts the front frame when the
queue is nonempty (the consumer only pops after observing a nonempty queue,
generator.cpp:186-192). -/
def CountedQueue.pop (c : CountedQueue) : CountedQueue :=
  if c.sq.q.isEmpty then c
  else { c with sq := c.sq.pop, poppedFrames := c.poppedFrames + 1 }

/-- Counted run of a whole operation sequence. -/
def CountedQueue.runOps (c : CountedQueue) (ops : List QOp) : CountedQueue :=
  ops.foldl (fun c op => match op with | .push d => c.push d | .pop => c.pop) c

/-- Conservation law the code actually satisfies: every overflow push loses
two frames (the evicted oldest and the never-appended incoming one), so with
positive capacity the push count equals pops plus remaining items plus TWICE
the overflow drops. -/
theorem countedQueue_conservation (cap : Nat) (hcap : 0 < cap)
    (ops : List QOp) :
    (CountedQueue.runOps ⟨⟨[], cap⟩, 0, 0, 0⟩ ops).pushedCalls =
      (CountedQueue.runOps ⟨⟨[], cap⟩, 0, 0, 0⟩ ops).poppedFrames +
      2 * (CountedQueue.runOps ⟨⟨[], cap⟩, 0, 0, 0⟩ ops).overflowDrops +
      (CountedQueue.runOps ⟨⟨[], cap⟩, 0, 0, 0⟩ ops).sq.q.length := by
  suffices h : ∀ c : CountedQueue, 0 < c.sq.maxSize →
      c.pushedCalls = c.poppedFrames + 2 * c.overflowDrops + c.sq.q.length →
      (CountedQueue.runOps c ops).pushedCalls =
        (CountedQueue.runOps c ops).poppedFrames +
        2 * (CountedQueue.runOps c ops).overflowDrops +
        (CountedQueue.runOps c ops).sq.q.length by
    exact h ⟨⟨[], cap⟩, 0, 0, 0⟩ hcap (by simp)
  induction ops with
  | nil => exact fun c _ hinv => hinv
  | cons op ops ih =>
      intro c hmax hinv
      simp only [CountedQueue.runOps, List.foldl_cons] at *
      cases op with
      | push d =>
          by_cases hfull : c.sq.maxSize ≤ c.sq.q.length
          · refine ih _ ?_ ?_ <;>
              simp only [CountedQueue.push, hfull, if_pos, SafetyQueue.push]
            · simpa using hmax
            · simp only [if_pos hfull, List.length_tail]
              omega
          · refine ih _ ?_ ?_ <;>
              simp only [CountedQueue.push, hfull, if_neg, SafetyQueue.push,
                not_false_iff]
            · simpa using hmax
            · simp only [if_neg hfull, List.length_append, List.length_cons,
                List.length_nil]
              omega
      | pop =>
          by_cases hemp : c.sq.q.isEmpty
          · refine ih _ ?_ ?_ <;> simp only [CountedQueue.pop, hemp, if_pos]
            · exact hmax
            · exact hinv
          · have hlen : c.sq.q.length ≠ 0 := by
              simpa [List.isEmpty_iff_length_eq_zero] using hemp
            refine ih _ ?_ ?_ <;>
              simp only [CountedQueue.pop, hemp, if_neg, not_false_iff,
                SafetyQueue.pop, Bool.not_eq_true]
            · simpa using hmax
            · simp only [hemp, if_neg, not_false_iff, Bool.not_eq_true,
                List.length_tail]
              omega

/-- Claim C4 (evaluation of the code at the failing input): capacity 2,
pushes of ids 0, 1, 2, no pops. The counts are pushed = 3, droppedByOverflow
= 1, popped = 0, remaining = 1, and pushed ≠ popped + droppedByOverflow +
remaining: the overflow push silently loses the incoming frame as well as the
evicted one, so the claimed accounting identity fails on the code. -/
theorem frame_accounting_failing_input :
    (CountedQueue.runOps ⟨⟨[], 2⟩, 0, 0, 0⟩
        [.push ⟨0⟩, .push ⟨1⟩, .push ⟨2⟩]).pushedCalls = 3 ∧
    (CountedQueue.runOps ⟨⟨[], 2⟩, 0, 0, 0⟩
        [.push ⟨0⟩, .push ⟨1⟩, .push ⟨2⟩]).overflowDrops = 1 ∧
    (CountedQueue.runOps ⟨⟨[], 2⟩, 0, 0, 0⟩
        [.push ⟨0⟩, .push ⟨1⟩, .push ⟨2⟩]).poppedFrames = 0 ∧
    (CountedQueue.runOps ⟨⟨[], 2⟩, 0, 0, 0⟩
        [.push ⟨0⟩, .push ⟨1⟩, .push ⟨2⟩]).sq.q.length = 1 ∧
    (CountedQueue.runOps ⟨⟨[], 2⟩, 0, 0, 0⟩
        [.push ⟨0⟩, .push ⟨1⟩, .push ⟨2⟩]).pushedCalls ≠
      (CountedQueue.runOps ⟨⟨[], 2⟩, 0, 0, 0⟩
        [.push ⟨0⟩, .push ⟨1⟩, .push ⟨2⟩]).poppedFrames +
      (CountedQueue.runOps ⟨⟨[], 2⟩, 0, 0, 0⟩
        [.push ⟨0⟩, .push ⟨1⟩, .push ⟨2⟩]).overflowDrops +
      (CountedQueue.runOps ⟨⟨[], 2⟩, 0, 0, 0⟩
        [.push ⟨0⟩, .push ⟨1⟩, .push ⟨2⟩]).sq.q.length := by
  decide

/-- Configuration struct (generator.cpp:45-52). -/
structure Requirements where
  imageWidth : Int
  imageHeight : Int
  frames : Int
  num_threads : Int
  duration_minutes : Int
  image_format : String
deriving DecidableEq

/-- Deadline the producer actually installs, as an offset in seconds from
startTime (generator.cpp:95): `endTime = startTime + std::chrono::seconds(10)`.
The line computing the deadline from req->duration_minutes (generator.cpp:94)
is commented out with the note "For testing, set to 10 seconds", so the
installed deadline ignores the configuration entirely. -/
def producerEndTimeOffsetSeconds (req : Requirements) : Int := 10

/-- Run duration the configuration requests, in seconds: duration_minutes
minutes (the commented-out generator.cpp:94 and the spec's
runDurationSeconds). -/
def configuredRunSeconds (req : Requirements) : Int :=
  req.duration_minutes * 60

/-- Claim C5 (evaluation of the code at the failing input): with the default
configuration duration_minutes = 5 (main.cpp:14-16), the producer's deadline
is the fixed constant 10 seconds while the configured duration is 300
seconds; the installed deadline is the same for every configuration, so it is
a fixed constant and not the configured value. -/
theorem producer_deadline_hardcoded :
    producerEndTimeOffsetSeconds ⟨640, 480, 50, 8, 5, "jpg"⟩ = 10 ∧
    configuredRunSeconds ⟨640, 480, 50, 8, 5, "jpg"⟩ = 300 ∧
    producerEndTimeOffsetSeconds ⟨640, 480, 50, 8, 5, "jpg"⟩ ≠
      configuredRunSeconds ⟨640, 480, 50, 8, 5, "jpg"⟩ ∧
    (∀ r₁ r₂ : Requirements,
      producerEndTimeOffsetSeconds r₁ = producerEndTimeOffsetSeconds r₂) := by
  refine ⟨rfl, rfl, by decide, fun r₁ r₂ => rfl⟩

/-- Sleep the producer applies in one loop iteration (generator.cpp:124-132):
elapsed is the time since this iteration's own loopStart; when
elapsed < framePeriod the producer sleeps framePeriod - elapsed, otherwise it
does not sleep at all. Durations are integers in an arbitrary fixed time
unit. -/
def producerSleep (framePeriod elapsed : Int) : Int :=
  if elapsed < framePeriod then framePeriod - elapsed else 0

/-- Instant at which an iteration pushes its frame: its loopStart, plus the
generation-and-bookkeeping time elapsed, plus the sleep
(generator.cpp:101-136; the push follows immediately after the sleep). -/
def producerEmitInstant (loopStart framePeriod elapsed : Int) : Int :=
  loopStart + elapsed + producerSleep framePeriod elapsed

/-- Emission instants of successive frames when iteration k takes work time
ws[k]: each iteration starts where the previous one pushed (the
inter-iteration bookkeeping is not modelled as taking time). -/
def producerEmitTimes (framePeriod startTime : Int) : List Int → List Int
  | [] => []
  | w :: ws =>
      producerEmitInstant startTime framePeriod w ::
        producerEmitTimes framePeriod (producerEmitInstant startTime framePeriod w) ws

/-- Schedule asserted by the claim (spec §4.2): frame sequenceId is due at
startTime + sequenceId * framePeriod, where framePeriod = 1/targetFps. -/
def specScheduledInstant (startTime framePeriod : Int) (sequenceId : Nat) : Int :=
  startTime + framePeriod * sequenceId

/-- Claim C6 counterexample: framePeriod 10, startTime 0, first iteration
takes 15 units of work and the second takes 0. The code emits frames at
instants [15, 25]: the second iteration begins at time 15, already past the
claimed scheduled instant startTime + 1 * framePeriod = 10, yet the producer
still sleeps a full 10 units — pacing is relative to each iteration's own
start, so the producer sleeps even when the current time is not before
startTime + sequenceId / targetFps, refuting the claim's schedule. -/
theorem producer_pacing_not_absolute :
    producerEmitTimes 10 0 [15, 0] = [15, 25] ∧
    specScheduledInstant 0 10 1 = 10 ∧
    producerSleep 10 0 = 10 ∧
    ¬ 15 < specScheduledInstant 0 10 1 := by
  decide

/-- Claim C6 (amended): the producer paces each iteration relative to its own
loop start, not against the absolute schedule startTime + sequenceId/targetFps:
the sleep is framePeriod - elapsed exactly when elapsed < framePeriod (i.e.
the producer sleeps only when less than one frame period has passed since its
own loopStart), the computed sleep is never negative, and the frame is pushed
at loopStart + max elapsed framePeriod. -/
theorem producer_pacing_relative (loopStart framePeriod elapsed : Int) :
    0 ≤ producerSleep framePeriod elapsed ∧
    (0 < producerSleep framePeriod elapsed ↔ elapsed < framePeriod) ∧
    producerEmitInstant loopStart framePeriod elapsed =
      loopStart + max elapsed framePeriod := by
  unfold producerEmitInstant producerSleep
  by_cases h : elapsed < framePeriod
  · simp only [if_pos h]
    refine ⟨by omega, ⟨fun _ => h, fun _ => by omega⟩, ?_⟩
    rw [max_eq_right (le_of_lt h)]
    omega
  · simp only [if_neg h]
    push_neg at h
    refine ⟨le_refl 0, ⟨fun hc => absurd hc (lt_irrefl 0), fun hc => by omega⟩, ?_⟩
    rw [max_eq_left h]
    omega

/-- Facts about what main_generator (generator.cpp:227-243) does at startup. -/
structure StartupResult where
  configRejected : Bool
  producerStarted : Bool
  consumersStarted : Int
deriving DecidableEq

/-- Startup behaviour of main_generator (generator.cpp:227-243): no
validation of any configuration value is performed and no error path exists;
threads[0] is unconditionally created running producer (generator.cpp:237),
and indices 1 .. num_threads-1 are created running consumer
(generator.cpp:239-243), so num_threads - 1 consumers are started when
num_threads ≥ 1 and none otherwise. -/
def main_generator_startup (width height : Int) (image_format : String)
    (frames minutes num_threads : Int) : StartupResult :=
  { configRejected := false
    producerStarted := true
    consumersStarted := max (num_threads - 1) 0 }

/-- Claim C7 counterexample: the configuration frames = 0 (targetFps ≤ 0)
and num_threads = 0 (consumerCount < 1) is not rejected and the producer
actor is still started, refuting "construction fails and no producer or
consumer actor is ever started". -/
theorem startup_never_validates :
    (main_generator_startup 640 480 "jpg" 0 5 0).configRejected = false ∧
    (main_generator_startup 640 480 "jpg" 0 5 0).producerStarted = true := by
  decide

/-- Claim C7 (amended): main_generator performs no configuration validation
at all: for every configuration, including those with consumerCount < 1 or
targetFps ≤ 0, startup reports no error and the producer thread is started
unconditionally. -/
theorem startup_unvalidated (width height : Int) (image_format : String)
    (frames minutes num_threads : Int) :
    (main_generator_startup width height image_format frames minutes
        num_threads).configRejected = false ∧
    (main_generator_startup width height image_format frames minutes
        num_threads).producerStarted = true :=
  ⟨rfl, rfl⟩

/-- Outcome of cv::imwrite for one frame as seen by the consumer
(generator.cpp:199). -/
inductive SaveOutcome where
  | ok
  | err
deriving DecidableEq, BEq

/-- Handling of one save result (generator.cpp:204-211): on failure the
consumer only prints to cerr — the code keeps no counter for failures — and
the loop continues; on success savedFrames is incremented and the loop
continues. The result is the new savedFrames count and whether the worker
keeps running (both branches fall through to the next loop iteration, so it
always does). -/
def consumerHandleSave (savedFrames : Nat) (r : SaveOutcome) : Nat × Bool :=
  match r with
  | .ok => (savedFrames + 1, true)
  | .err => (savedFrames, true)

/-- Final savedFrames count after a consumer forwards a list of frames whose
save results are rs; the worker never exits early, so every element is
processed. -/
def consumerRunSaved (savedFrames : Nat) : List SaveOutcome → Nat
  | [] => savedFrames
  | r :: rs => consumerRunSaved (consumerHandleSave savedFrames r).1 rs

/-- Failure counter kept by the code: there is none — nothing is incremented
on a failed save (generator.cpp:204-205 only print to cerr), so the count of
recorded failures is 0 for every run. -/
def consumerRunFailed (rs : List SaveOutcome) : Nat := 0

/-- Claim C8 counterexample: a run forwarding exactly one frame whose save
fails. The success count stays 0 and the code records no failure, so failure
and success counts together are 0 and do not equal the 1 frame forwarded to
the sink, refuting "failure and success counts together equal the number of
frames forwarded". -/
theorem save_failure_uncounted :
    consumerRunSaved 0 [SaveOutcome.err] = 0 ∧
    consumerRunFailed [SaveOutcome.err] = 0 ∧
    consumerRunSaved 0 [SaveOutcome.err] + consumerRunFailed [SaveOutcome.err] ≠
      [SaveOutcome.err].length := by
  decide

/-- Test for a successful save outcome. -/
def SaveOutcome.isOk : SaveOutcome → Bool
  | .ok => true
  | .err => false

theorem consumerRunSaved_eq_countP (savedFrames : Nat) (rs : List SaveOutcome) :
    consumerRunSaved savedFrames rs = savedFrames + rs.countP SaveOutcome.isOk := by
  induction rs generalizing savedFrames with
  | nil => simp [consumerRunSaved]
  | cons r rs ih =>
      cases r with
      | ok =>
          simp only [consumerRunSaved, consumerHandleSave, ih,
            List.countP_cons]
          simp [SaveOutcome.isOk]
          omega
      | err =>
          simp only [consumerRunSaved, consumerHandleSave, ih,
            List.countP_cons]
          simp [SaveOutcome.isOk]

/-- Claim C8 (amended): on a save returning Err the consumer only logs and
continues — the worker does not exit and no counter is incremented — and on
Ok it increments savedFrames and continues; consequently after a run
savedFrames equals the number of Ok results among the frames forwarded to the
sink (and is bounded by that number of frames). -/
theorem save_handling (savedFrames : Nat) (rs : List SaveOutcome) :
    (consumerHandleSave savedFrames SaveOutcome.err).1 = savedFrames ∧
    (consumerHandleSave savedFrames SaveOutcome.err).2 = true ∧
    (consumerHandleSave savedFrames SaveOutcome.ok).1 = savedFrames + 1 ∧
    (consumerHandleSave savedFrames SaveOutcome.ok).2 = true ∧
    consumerRunSaved savedFrames rs = savedFrames + rs.countP SaveOutcome.isOk ∧
    consumerRunSaved 0 rs ≤ rs.length := by
  refine ⟨rfl, rfl, rfl, rfl, consumerRunSaved_eq_countP savedFrames rs, ?_⟩
  rw [consumerRunSaved_eq_countP 0 rs]
  simpa using List.countP_le_length SaveOutcome.isOk (l := rs)

/-- Global shared state of generator.cpp: the shared SafetyQueue q
(generator.cpp:38), the flags producerDone (line 31) and timedOut (line 32),
the ids of consumer threads currently blocked in pthread_cond_wait on
queueCond, and the consumer-side counters (poppedFrames models the frames
drained by q.front()+q.pop(), savedFrames the atomic counter of line 33). -/
structure PipelineState where
  sq : SafetyQueue
  producerDone : Bool
  timedOut : Bool
  blocked : List Nat
  poppedFrames : Nat
  savedFrames : Nat
deriving DecidableEq

/-- Guard of the consumer wait loop (generator.cpp:183):
`while (q.empty() && !producerDone && !timedOut) pthread_cond_wait(...)`. -/
def waitCont (s : PipelineState) : Bool :=
  s.sq.isEmpty && !s.producerDone && !s.timedOut

/-- A consumer's wait returns — the thread leaves the wait loop — exactly
when the loop guard fails. -/
def waitReturns (s : PipelineState) : Bool := !(waitCont s)

/-- Guard of the producer's early-exit check (generator.cpp:106-109): the
producer breaks out of its generation loop early exactly when timedOut is
true. -/
def producerBreakGuard (s : PipelineState) : Bool := s.timedOut

/-- Initial shared state: empty queue of capacity cap (main_generator sets
cap = 15, generator.cpp:232), both flags false, nobody blocked, zero
counters. -/
def initState (cap : Nat) : PipelineState :=
  { sq := ⟨[], cap⟩
    producerDone := false
    timedOut := false
    blocked := []
    poppedFrames := 0
    savedFrames := 0 }

/-- One interleaving step of the pipeline; nc is the number of consumer
threads (num_threads - 1). push is the producer's q.push plus the
pthread_cond_signal of generator.cpp:150, which wakes at most one blocked
waiter (modelled as the head of the blocked list; which waiter the OS picks
affects no claim). beginWait is a consumer entering pthread_cond_wait while
the guard holds; consume is a consumer's front-then-pop plus the imwrite
outcome ok (generator.cpp:191-211). finishProducer is the producer's
terminal transition (generator.cpp:154-157): set producerDone and
pthread_cond_broadcast, waking every waiter. cancel is the queue's
markCancelled. Modelled from the spec: "markProducerFinished() /
markCancelled(): monotonic, idempotent, wake all waiters" — src declares and
reads timedOut but no code under src ever sets it, so the cancel transition
is gated by the withCancel parameter; with withCancel = false the relation
has exactly the transitions of src/generator.cpp. -/
inductive PStep (nc : Nat) (withCancel : Bool) :
    PipelineState → PipelineState → Prop where
  | push (s : PipelineState) (d : ImgData) (hp : s.producerDone = false) :
      PStep nc withCancel s
        { s with sq := s.sq.push d, blocked := s.blocked.tail }
  | beginWait (s : PipelineState) (tid : Nat) (ht : tid < nc)
      (hw : waitCont s = true) (hb : tid ∉ s.blocked) :
      PStep nc withCancel s { s with blocked := tid :: s.blocked }
  | consume (s : PipelineState) (tid : Nat) (ok : Bool) (ht : tid < nc)
      (hb : tid ∉ s.blocked) (hq : s.sq.isEmpty = false) :
      PStep nc withCancel s
        { s with
            sq := s.sq.pop
            poppedFrames := s.poppedFrames + 1
            savedFrames := if ok then s.savedFrames + 1 else s.savedFrames }
  | finishProducer (s : PipelineState) :
      PStep nc withCancel s { s with producerDone := true, blocked := [] }
  | cancel (s : PipelineState) (hc : withCancel = true) :
      PStep nc withCancel s { s with timedOut := true, blocked := [] }

/-- States reachable from the initial state by pipeline steps. -/
def PReach (nc : Nat) (withCancel : Bool) (cap : Nat) (s : PipelineState) :
    Prop :=
  Relation.ReflTransGen (PStep nc withCancel) (initState cap) s

theorem waitReturns_of_flag (s : PipelineState)
    (h : s.producerDone = true ∨ s.timedOut = true) :
    waitReturns s = true := by
  rcases h with h | h <;> simp [waitReturns, waitCont, h]

/-- Claim C10: with exactly the transitions present in src (withCancel =
false), the cancellation flag timedOut is false in every reachable state of
the program — no code path ever sets it — so the producer's early-exit check
(`if (timedOut) break`, generator.cpp:106-109) never triggers, and whenever a
consumer's wait returns it is because the queue is nonempty or because
producerDone is set: the cancelled branch never terminates a wait, leaving
producer-finished as the only terminal transition that can occur. -/
theorem timedOut_never_set (nc cap : Nat) (s : PipelineState)
    (h : PReach nc false cap s) :
    s.timedOut = false ∧
    producerBreakGuard s = false ∧
    (waitReturns s = true → s.sq.isEmpty = false ∨ s.producerDone = true) := by
  have hto : s.timedOut = false := by
    induction h with
    | refl => rfl
    | tail _ hstep ih =>
        cases hstep with
        | push d hp => exact ih
        | beginWait tid ht hw hb => exact ih
        | consume tid ok ht hb hq => exact ih
        | finishProducer => exact ih
        | cancel hc => exact absurd hc (by decide)
  refine ⟨hto, hto, ?_⟩
  intro hw
  cases hE : s.sq.isEmpty <;> cases hP : s.producerDone <;>
    simp_all [waitReturns, waitCont]

/-- Claim C10 witness: the invariant instantiated at the program's initial
state (capacity 15, zero steps, seven consumers). -/
theorem timedOut_never_set_witness :
    (initState 15).timedOut = false ∧
    producerBreakGuard (initState 15) = false ∧
    (waitReturns (initState 15) = true →
      (initState 15).sq.isEmpty = false ∨ (initState 15).producerDone = true) :=
  timedOut_never_set 7 15 (initState 15) Relation.ReflTransGen.refl

/-- Claim C2: (1) a consumer's wait returns exactly when the queue is
nonempty, or producerDone is set with the queue empty, or timedOut is set;
(2) both flags are monotone along every step; (3) in every state with one of
the flags set the wait guard fails, so every future wait returns without ever
blocking; (4) the step that sets producerDone (markProducerFinished,
generator.cpp:154-157) and the step that sets timedOut (markCancelled,
modelled from the spec) broadcast: afterwards no consumer remains blocked and
the wait condition holds, so every consumer blocked at that moment returns;
(5) a consumer can newly block only while the wait guard holds, so no wait
started after a terminal transition blocks. -/
theorem wait_termination (nc : Nat) :
    (∀ s : PipelineState, waitReturns s = true ↔
      (s.sq.isEmpty = false ∨ (s.producerDone = true ∧ s.sq.isEmpty = true) ∨
        s.timedOut = true)) ∧
    (∀ s u : PipelineState, PStep nc true s u →
      (s.producerDone = true → u.producerDone = true) ∧
      (s.timedOut = true → u.timedOut = true)) ∧
    (∀ s : PipelineState, s.producerDone = true ∨ s.timedOut = true →
      waitReturns s = true) ∧
    (∀ s u : PipelineState, PStep nc true s u →
      ((s.producerDone = false ∧ u.producerDone = true) ∨
        (s.timedOut = false ∧ u.timedOut = true)) →
      u.blocked = [] ∧ waitReturns u = true) ∧
    (∀ s u : PipelineState, ∀ tid : Nat, PStep nc true s u →
      u.blocked = tid :: s.blocked → waitCont s = true) := by
  refine ⟨?_, ?_, ?_, ?_, ?_⟩
  · intro s
    cases hE : s.sq.isEmpty <;> cases hP : s.producerDone <;>
      cases hT : s.timedOut <;> simp_all [waitReturns, waitCont]
  · intro s u hstep
    cases hstep with
    | push d hp => exact ⟨fun h => h, fun h => h⟩
    | beginWait tid ht hw hb => exact ⟨fun h => h, fun h => h⟩
    | consume tid ok ht hb hq => exact ⟨fun h => h, fun h => h⟩
    | finishProducer => exact ⟨fun _ => rfl, fun h => h⟩
    | cancel hc => exact ⟨fun h => h, fun _ => rfl⟩
  · exact waitReturns_of_flag
  · intro s u hstep hterm
    cases hstep with
    | push d hp =>
        rcases hterm with ⟨h1, h2⟩ | ⟨h1, h2⟩ <;> simp_all
    | beginWait tid ht hw hb =>
        rcases hterm with ⟨h1, h2⟩ | ⟨h1, h2⟩ <;> simp_all
    | consume tid ok ht hb hq =>
        rcases hterm with ⟨h1, h2⟩ | ⟨h1, h2⟩ <;> simp_all
    | finishProducer =>
        exact ⟨rfl, waitReturns_of_flag _ (Or.inl rfl)⟩
    | cancel hc =>
        exact ⟨rfl, waitReturns_of_flag _ (Or.inr rfl)⟩
  · intro s u tid hstep hcons
    cases hstep with
    | push d hp =>
        exfalso
        have hlen := congrArg List.length hcons
        simp only [List.length_tail, List.length_cons] at hlen
        omega
    | beginWait tid2 ht hw hb => exact hw
    | consume tid2 ok ht hb hq =>
        exfalso
        have hlen := congrArg List.length hcons
        simp only [List.length_cons] at hlen
        omega
    | finishProducer => exact absurd hcons (by simp)
    | cancel hc => exact absurd hcons (by simp)

/-- Claim C2 witness: the properties instantiated at the concrete
markProducerFinished step out of the initial state with capacity 15 and three
consumers. -/
theorem wait_termination_witness :
    waitReturns { initState 15 with producerDone := true, blocked := [] } = true ∧
    ({ initState 15 with producerDone := true, blocked := [] } :
        PipelineState).blocked = [] := by
  have h := wait_termination 3
  refine ⟨h.2.2.1 _ (Or.inl rfl), ?_⟩
  exact (h.2.2.2.1 (initState 15) _ (PStep.finishProducer (initState 15))
    (Or.inl ⟨rfl, rfl⟩)).1

/-- Role a created thread runs (generator.cpp:236-243). -/
inductive ThreadRole where
  | producer
  | consumer (tid : Nat)
deriving DecidableEq

/-- Test for a consumer thread. -/
def ThreadRole.isConsumer : ThreadRole → Bool
  | .producer => false
  | .consumer _ => true

/-- Threads created by main_generator (generator.cpp:236-243): threads[0] is
created running producer, and the loop `for (i = 1; i < num_threads; ++i)`
creates threads 1 .. num_threads - 1 running consumer with thread_id i. -/
def spawnedThreads (num_threads : Nat) : List ThreadRole :=
  ThreadRole.producer ::
    (List.range (num_threads - 1)).map (fun i => ThreadRole.consumer (i + 1))

theorem spawnedThreads_consumer_length (l : List Nat) :
    ((l.map (fun i => ThreadRole.consumer (i + 1))).filter
      ThreadRole.isConsumer).length = l.length := by
  induction l with
  | nil => rfl
  | cons a l ih => simp [List.filter_cons, ThreadRole.isConsumer, ih]

/-- Claim C9: main_generator with thread count num_threads creates exactly
num_threads threads in total; the thread at index 0 is the producer and only
the remaining num_threads - 1 run the consumer loop. With num_threads = 1 the
pool is just the producer, and in the resulting system with zero consumer
threads no reachable program state has ever popped or saved a frame: pushed
frames are never drained. -/
theorem thread_pool_shape (num_threads cap : Nat) (hn : 1 ≤ num_threads) :
    (spawnedThreads num_threads).length = num_threads ∧
    (spawnedThreads num_threads).head? = some ThreadRole.producer ∧
    ((spawnedThreads num_threads).filter ThreadRole.isConsumer).length =
      num_threads - 1 ∧
    (num_threads = 1 → spawnedThreads num_threads = [ThreadRole.producer]) ∧
    (∀ s : PipelineState, PReach 0 false cap s →
      s.poppedFrames = 0 ∧ s.savedFrames = 0) := by
  refine ⟨?_, rfl, ?_, ?_, ?_⟩
  · simp only [spawnedThreads, List.length_cons, List.length_map,
      List.length_range]
    omega
  · simp only [spawnedThreads, List.filter_cons, ThreadRole.isConsumer,
      if_neg, Bool.false_eq_true, not_false_iff,
      spawnedThreads_consumer_length, List.length_range]
  · intro h1
    subst h1
    rfl
  · intro s h
    induction h with
    | refl => exact ⟨rfl, rfl⟩
    | tail _ hstep ih =>
        cases hstep with
        | push d hp => exact ih
        | beginWait tid ht hw hb => exact absurd ht (Nat.not_lt_zero tid)
        | consume tid ok ht hb hq => exact absurd ht (Nat.not_lt_zero tid)
        | finishProducer => exact ih
        | cancel hc => exact absurd hc (by decide)

/-- Claim C9 witness: the thread layout at num_threads = 1 and the
zero-step-reachable initial state with capacity 15: no frame has been popped
or saved. -/
theorem thread_pool_shape_witness :
    (spawnedThreads 1).length = 1 ∧
    spawnedThreads 1 = [ThreadRole.producer] ∧
    (initState 15).poppedFrames = 0 ∧
    (initState 15).savedFrames = 0 := by
  have h := thread_pool_shape 1 15 (by decide)
  exact ⟨h.1, h.2.2.2.1 rfl,
    (h.2.2.2.2 (initState 15) Relation.ReflTransGen.refl).1,
    (h.2.2.2.2 (initState 15) Relation.ReflTransGen.refl).2⟩
